import Mathlib

/-!
# Shallow embedding of the shopnest payment reconciliation code

This file embeds, as executable Lean definitions, the payment-related parts
of `src/marketplace/models.py` and `src/marketplace/views.py`:

* the `Payment` and `Order` records (`marketplace/models.py`),
* the retry policy `Payment.can_retry` / `Payment.increment_retry`,
* the webhook signature check `PaystackWebhookView.verify_signature`,
* the webhook handler `PaystackWebhookView.post`,
* the verify handler `VerifyPaymentAPIView.get`,
* the initiation handler `PaymentAPIView.post`.

Statuses are kept as the literal strings the Python code writes
("Pending", "Completed", "Failed", "Refunded", "Paid").  The JSONField
`metadata` is modelled as an association list with Python `dict.update`
semantics (update in place when the key exists, append otherwise).  The
HMAC-SHA512 hex digest under the server secret is abstracted as a function
parameter `hm : List Nat → String`; the handler control flow around it is
translated literally from the source.
-/

/-- A JSON-ish value stored in `Payment.metadata`. `jnull` models Python
`None` (e.g. `data.get('message')` when absent). -/
inductive JVal where
  | jnull : JVal
  | jstr (s : String) : JVal
  | jdata (reference id message : Option String) : JVal
deriving DecidableEq, Repr

/-- The `data` object of a Paystack webhook payload; fields are read in the
source with `data.get(...)`, hence all optional. -/
structure WData where
  reference : Option String
  wid : Option String
  message : Option String
deriving DecidableEq, Repr

/-- A parsed webhook body: `payload.get('event')` and `payload.get('data')`. -/
structure WebhookPayload where
  event : Option String
  data : Option WData
deriving DecidableEq, Repr

/-- `marketplace.models.Order`, restricted to the fields the payment flow
touches. -/
structure Order where
  id : Nat
  status : String
deriving DecidableEq, Repr

/-- `marketplace.models.Payment`. `last_retry_at` is a POSIX-seconds
timestamp; `metadata` is the JSONField association list. -/
structure Payment where
  id : Nat
  orderId : Nat
  amount : Nat
  currency : String
  payment_method : String
  status : String
  transaction_id : Option String
  reference : Option String
  metadata : List (String × JVal)
  retry_count : Nat
  last_retry_at : Option Nat
deriving DecidableEq, Repr

/-- The persistent store: payment rows and order rows. -/
structure DB where
  payments : List Payment
  orders : List Order
deriving DecidableEq, Repr

/-- Python `d[k]` read: first binding of `k`, if any. -/
def dictGet (d : List (String × JVal)) (k : String) : Option JVal :=
  (d.find? (fun kv => decide (kv.1 = k))).map (fun kv => kv.2)

/-- Python `d[k] = v`: overwrite in place when present, append otherwise. -/
def dictSet (d : List (String × JVal)) (k : String) (v : JVal) :
    List (String × JVal) :=
  if d.any (fun kv => decide (kv.1 = k)) then
    d.map (fun kv => if kv.1 = k then (k, v) else kv)
  else
    d ++ [(k, v)]

/-- Python `d.update(new)`: set each binding of `new` in order. -/
def dictUpdate (d : List (String × JVal)) :
    List (String × JVal) → List (String × JVal)
  | [] => d
  | (k, v) :: rest => dictUpdate (dictSet d k v) rest

/-- `Payment.can_retry` (models.py lines 129-135): deny once
`retry_count >= 3`; deny while fewer than 300 seconds have elapsed since
`last_retry_at`. -/
def can_retry (p : Payment) (now : Nat) : Bool :=
  if p.retry_count ≥ 3 then false
  else
    match p.last_retry_at with
    | none => true
    | some t => if now - t < 300 then false else true

/-- `Payment.increment_retry` (models.py lines 137-141). -/
def increment_retry (p : Payment) (now : Nat) : Payment :=
  { p with retry_count := p.retry_count + 1, last_retry_at := some now }

/-- Python `hmac.compare_digest` on two hex strings: extensionally, string
equality (the source uses it for its constant-time execution, which is a
timing property outside this model). -/
def compare_digest (a b : String) : Bool :=
  a == b

/-- `PaystackWebhookView.verify_signature` (views.py lines 463-474).
`signature = none` models a missing `x-paystack-signature` header; Python's
`if not signature` also treats the empty string as missing.  `hm` is the
HMAC-SHA512 hex digest over the raw body under the server secret. -/
def verify_signature (hm : List Nat → String) (payload : List Nat)
    (signature : Option String) : Bool :=
  match signature with
  | none => false
  | some s => if s = "" then false else compare_digest (hm payload) s

/-- `Payment.objects.get(reference=reference)`: first row whose reference
matches (the column is unique, so at most one row matches in practice). -/
def findPayment (db : DB) (ref : Option String) : Option Payment :=
  db.payments.find? (fun p => decide (p.reference = ref))

/-- Fetch of `payment.order` by the foreign key. -/
def lookupOrder (db : DB) (oid : Nat) : Option Order :=
  db.orders.find? (fun o => decide (o.id = oid))

/-- `payment.save()`: update the row with the same primary key. -/
def savePayment (db : DB) (p : Payment) : DB :=
  { db with payments := db.payments.map (fun q => if q.id = p.id then p else q) }

/-- `order.save()`: update the row with the same primary key. -/
def saveOrder (db : DB) (o : Order) : DB :=
  { db with orders := db.orders.map (fun q => if q.id = o.id then o else q) }

/-- Convenience projection: status of the payment found by reference. -/
def paymentStatus (db : DB) (ref : Option String) : Option String :=
  (findPayment db ref).map (fun p => p.status)

/-- Convenience projection: metadata of the payment found by reference. -/
def paymentMeta (db : DB) (ref : Option String) :
    Option (List (String × JVal)) :=
  (findPayment db ref).map (fun p => p.metadata)

/-- Convenience projection: status of the order with the given id. -/
def orderStatus (db : DB) (oid : Nat) : Option String :=
  (lookupOrder db oid).map (fun o => o.status)

/-- `PaystackWebhookView.post` (views.py lines 476-577).  Returns the HTTP
status and the resulting store.  `parsed = none` models a body that
`json.loads` rejects (400).  When a handled event carries `data = None`,
Python raises `AttributeError` on `data.get`, which the outer
`except Exception` turns into 500; on the charge.success path this unwinds
the open `transaction.atomic()` block, so the store is unchanged.  On
charge.success a missing payment returns 404; on charge.failed and
refund.processed it is logged and falls through to the final 200. -/
def webhookPost (hm : List Nat → String) (db : DB) (now : String)
    (body : List Nat) (parsed : Option WebhookPayload)
    (signature : Option String) : Nat × DB :=
  if verify_signature hm body signature = false then (401, db)
  else
    match parsed with
    | none => (400, db)
    | some payload =>
      if payload.event = some "charge.success" then
        match payload.data with
        | none => (500, db)
        | some d =>
          match findPayment db d.reference with
          | none => (404, db)
          | some p =>
            match lookupOrder db p.orderId with
            | none => (500, db)
            | some o =>
              let p1 := { p with
                status := "Completed",
                transaction_id := d.wid,
                metadata := dictUpdate p.metadata
                  [("webhook_data", JVal.jdata d.reference d.wid d.message),
                   ("webhook_received_at", JVal.jstr now)] }
              let db1 := savePayment db p1
              let db2 := saveOrder db1 { o with status := "Paid" }
              (200, db2)
      else if payload.event = some "charge.failed" then
        match payload.data with
        | none => (500, db)
        | some d =>
          match findPayment db d.reference with
          | none => (200, db)
          | some p =>
            let p1 := { p with
              status := "Failed",
              metadata := dictUpdate p.metadata
                [("webhook_data", JVal.jdata d.reference d.wid d.message),
                 ("webhook_received_at", JVal.jstr now),
                 ("failure_reason",
                   match d.message with
                   | none => JVal.jnull
                   | some m => JVal.jstr m)] }
            (200, savePayment db p1)
      else if payload.event = some "refund.processed" then
        match payload.data with
        | none => (500, db)
        | some d =>
          match findPayment db d.reference with
          | none => (200, db)
          | some p =>
            let p1 := { p with
              status := "Refunded",
              metadata := dictUpdate p.metadata
                [("webhook_data", JVal.jdata d.reference d.wid d.message),
                 ("webhook_received_at", JVal.jstr now),
                 ("refund_id",
                   match d.wid with
                   | none => JVal.jnull
                   | some i => JVal.jstr i)] }
            (200, savePayment db p1)
      else (200, db)

/-- Outcome of the outbound `GET /transaction/verify/{reference}` call made
by `VerifyPaymentAPIView.get`. `reqError` is a `requests` exception (503);
`notOk` is a response whose top-level `status` field is falsy (400);
`ok s i` carries `res_data["data"]["status"]` and `res_data["data"]["id"]`. -/
inductive VerifyGateway where
  | reqError : VerifyGateway
  | notOk : VerifyGateway
  | ok (vstatus : String) (vid : String) : VerifyGateway
deriving DecidableEq, Repr

/-- `VerifyPaymentAPIView.get` (views.py lines 345-411).  On a gateway
"success" it sets `Order.status = "Paid"` and
`Payment.status = "Completed"`, `transaction_id = id` inside one
`transaction.atomic()` block; an unknown reference is 404; a gateway status
other than "success" is 400.  The handler never touches
`Payment.metadata`. -/
def verifyGet (db : DB) (reference : String) (g : VerifyGateway) : Nat × DB :=
  match g with
  | .reqError => (503, db)
  | .notOk => (400, db)
  | .ok vstatus vid =>
    if vstatus = "success" then
      match findPayment db (some reference) with
      | none => (404, db)
      | some p =>
        match lookupOrder db p.orderId with
        | none => (404, db)
        | some o =>
          let db1 := saveOrder db { o with status := "Paid" }
          let p1 := { p with status := "Completed", transaction_id := some vid }
          (200, savePayment db1 p1)
    else (400, db)

/-- Outcome of the outbound `POST /transaction/initialize` call made by
`PaymentAPIView.post`. `httpErr` is a non-200 gateway response (503);
`reqException` is a `requests` exception — note `requests.exceptions.Timeout`
is a subclass of `RequestException`, so the source's 504 branch is
unreachable and timeouts also land here (503); `httpOk` carries the
reference and authorization URL of a 200 response. -/
inductive InitGateway where
  | httpErr : InitGateway
  | reqException : InitGateway
  | httpOk (reference authUrl : String) : InitGateway
deriving DecidableEq, Repr

/-- The row `serializer.save(...)` inserts on successful initiation
(views.py lines 262-273). -/
def mkPayment (db : DB) (orderId amount : Nat)
    (currency payment_method reference authUrl : String) : Payment :=
  { id := db.payments.foldr (fun p m => max p.id m) 0 + 1,
    orderId := orderId,
    amount := amount,
    currency := currency,
    payment_method := payment_method,
    status := "Pending",
    transaction_id := none,
    reference := some reference,
    metadata := [("payment_url", JVal.jstr authUrl),
                 ("payment_method", JVal.jstr payment_method),
                 ("currency", JVal.jstr currency)],
    retry_count := 0,
    last_retry_at := none }

/-- `PaymentAPIView.post` (views.py lines 200-307).  `valid` is
`serializer.is_valid()`.  An existing payment for the order is 400 before
any gateway call; a gateway error or exception is 503 with no row created;
only a 200 gateway response creates the Pending row (201). -/
def paymentPost (db : DB) (valid : Bool) (orderId amount : Nat)
    (currency payment_method : String) (g : InitGateway) : Nat × DB :=
  if valid = false then (400, db)
  else if db.payments.any (fun p => decide (p.orderId = orderId)) then (400, db)
  else
    match g with
    | .httpErr => (503, db)
    | .reqException => (503, db)
    | .httpOk reference authUrl =>
      (201, { db with payments := db.payments ++
        [mkPayment db orderId amount currency payment_method reference authUrl] })

/-- Metadata value stored under key `k` for the payment at `ref`. -/
def metaAt (db : DB) (ref : Option String) (k : String) : Option JVal :=
  (findPayment db ref).bind (fun p => dictGet p.metadata k)

/-- The cross-record equivalence of spec §8: every payment is `Completed`
exactly when its order is `Paid`. -/
def consistentB (db : DB) : Bool :=
  db.payments.all (fun p => db.orders.all (fun o =>
    if p.orderId = o.id then
      decide (p.status = "Completed") == decide (o.status = "Paid")
    else true))

/-! ## Concrete fixtures used by counterexamples and witnesses -/

/-- A concrete digest function standing in for HMAC-SHA512 hex. -/
def hmC : List Nat → String := fun _ => "sig0"

/-- A concrete raw body. -/
def bodyC : List Nat := [1, 2, 3]

/-- The matching signature header for `bodyC` under `hmC`. -/
def sigC : Option String := some "sig0"

/-- The reference of the fixture payment, `"42-7"` as in spec §8. -/
def refC : Option String := some "42-7"

/-- A `Pending` payment for order 42, with one pre-existing metadata key. -/
def pPending : Payment :=
  { id := 1, orderId := 42, amount := 100, currency := "GHS",
    payment_method := "card", status := "Pending", transaction_id := none,
    reference := refC, metadata := [("payment_url", JVal.jstr "u")],
    retry_count := 0, last_retry_at := none }

/-- Order 42 in its pre-payment state. -/
def oPending : Order := { id := 42, status := "pending" }

/-- Store holding one pending payment and its order. -/
def dbPending : DB := { payments := [pPending], orders := [oPending] }

/-- The fixture payment after successful completion. -/
def pCompleted : Payment :=
  { pPending with status := "Completed", transaction_id := some "txn_1" }

/-- Order 42 once paid. -/
def oPaid : Order := { oPending with status := "Paid" }

/-- Store after a completed payment: payment `Completed`, order `Paid`. -/
def dbCompleted : DB := { payments := [pCompleted], orders := [oPaid] }

/-- A `charge.success` payload for reference `"42-7"`. -/
def plSuccess : WebhookPayload :=
  { event := some "charge.success",
    data := some { reference := refC, wid := some "txn_1", message := none } }

/-- A `charge.failed` payload for reference `"42-7"`. -/
def plFailed : WebhookPayload :=
  { event := some "charge.failed",
    data := some { reference := refC, wid := some "txn_1",
                   message := some "declined" } }

/-- A `refund.processed` payload for reference `"42-7"`. -/
def plRefund : WebhookPayload :=
  { event := some "refund.processed",
    data := some { reference := refC, wid := some "rf_1", message := none } }

/-- A `charge.success` payload for a reference no payment carries. -/
def plUnknown : WebhookPayload :=
  { event := some "charge.success",
    data := some { reference := some "other-ref", wid := some "txn_9",
                   message := none } }

/-- The fixture payment with the retry cap reached. -/
def pRetry3 : Payment := { pPending with retry_count := 3 }

/-- A concrete digest function whose outputs all have the length of an
HMAC-SHA512 hex digest (128 characters). -/
def hm128 : List Nat → String := fun _ => String.mk (List.replicate 128 'a')

/-- Response-code policy of the webhook endpoint as the (amended) spec
words it: 401 on a failed signature check; 400 on malformed JSON; for
`charge.success`, 404 when no payment carries the reference and 200
otherwise; 500 when a handled event misses its `data` object; 200 for
everything else. -/
def webhookCodeSpec (hm : List Nat → String) (db : DB) (body : List Nat)
    (parsed : Option WebhookPayload) (signature : Option String) : Nat :=
  if verify_signature hm body signature = false then 401
  else
    match parsed with
    | none => 400
    | some pl =>
      if pl.event = some "charge.success" then
        match pl.data with
        | none => 500
        | some d => if (findPayment db d.reference).isSome then 200 else 404
      else if pl.event = some "charge.failed" ∨
              pl.event = some "refund.processed" then
        match pl.data with
        | none => 500
        | some _ => 200
      else 200

/-! ## Counterexamples -/

/-- C1 counterexample: with the payment already `Completed` by a first
`charge.success` delivery, a second delivery of the same outcome is NOT a
no-op — it overwrites `webhook_received_at` with the new receipt time
(a fresh audit entry) and changes the store again. -/
theorem C1_second_delivery_not_noop :
    (let db1 := (webhookPost hmC dbPending "t1" bodyC (some plSuccess) sigC).2
     let r2 := webhookPost hmC db1 "t2" bodyC (some plSuccess) sigC
     paymentStatus db1 refC = some "Completed" ∧
     metaAt db1 refC "webhook_received_at" = some (JVal.jstr "t1") ∧
     r2.1 = 200 ∧
     metaAt r2.2 refC "webhook_received_at" = some (JVal.jstr "t2") ∧
     r2.2 ≠ db1) := by decide

/-- C2 counterexample: a `charge.failed` delivery on an already `Completed`
payment overwrites the status to `Failed` — the status moves backward and
the existing terminal state does not win. -/
theorem C2_completed_regresses_to_failed :
    (let r := webhookPost hmC dbCompleted "t2" bodyC (some plFailed) sigC
     paymentStatus dbCompleted refC = some "Completed" ∧
     r.1 = 200 ∧
     paymentStatus r.2 refC = some "Failed") := by decide

/-- C3 counterexample: the equivalence Payment=Completed ⟺ Order=Paid holds
before but fails after a `refund.processed` reconcile, which rewrites only
the payment and leaves the order `Paid`. -/
theorem C3_refund_breaks_equivalence :
    (let r := webhookPost hmC dbCompleted "t2" bodyC (some plRefund) sigC
     consistentB dbCompleted = true ∧
     r.1 = 200 ∧
     paymentStatus r.2 refC = some "Refunded" ∧
     orderStatus r.2 42 = some "Paid" ∧
     consistentB r.2 = false) := by decide

/-- C4 counterexample: `refund.processed` on a `Pending` (non-Completed)
payment is not rejected with InvalidTransition — it returns 200 and rewrites
the status to `Refunded`. -/
theorem C4_refund_of_pending_applied :
    (let r := webhookPost hmC dbPending "t2" bodyC (some plRefund) sigC
     paymentStatus dbPending refC = some "Pending" ∧
     r.1 = 200 ∧
     paymentStatus r.2 refC = some "Refunded") := by decide

/-- C5 counterexample: a signature-valid, well-formed `charge.success`
webhook whose reference matches no payment returns 404, not the 200 the
policy requires for payment-not-found. -/
theorem C5_success_not_found_is_404 :
    verify_signature hmC bodyC sigC = true ∧
    (webhookPost hmC dbPending "t1" bodyC (some plUnknown) sigC).1 = 404 := by
  decide

/-- C9 counterexample: the verify-path success mutation completes the
payment but appends nothing to `metadata` — no `webhook_data` key, metadata
unchanged — so not every reconciliation mutation path records the audit
entry. -/
theorem C9_verify_path_adds_no_metadata :
    (let r := verifyGet dbPending "42-7" (VerifyGateway.ok "success" "txn_1")
     r.1 = 200 ∧
     paymentStatus r.2 refC = some "Completed" ∧
     metaAt r.2 refC "webhook_data" = none ∧
     metaAt r.2 refC "webhook_received_at" = none ∧
     paymentMeta r.2 refC = paymentMeta dbPending refC) := by decide

/-! ## Lemmas about the metadata dictionary -/

theorem dict_pred_comp (k k' : String) (v : JVal) (kv : String × JVal) :
    decide ((if kv.1 = k' then (k', v) else kv).1 = k) = decide (kv.1 = k) := by
  by_cases hkv : kv.1 = k' <;> simp [hkv]

theorem dictGet_dictSet_same (d : List (String × JVal)) (k : String)
    (v : JVal) : dictGet (dictSet d k v) k = some v := by
  unfold dictSet
  by_cases ha : d.any (fun kv => decide (kv.1 = k)) = true
  · rw [if_pos ha]
    unfold dictGet
    rw [List.find?_map]
    simp only [Function.comp_def, dict_pred_comp]
    cases hf : d.find? (fun kv => decide (kv.1 = k)) with
    | none =>
      rw [List.find?_eq_none] at hf
      rcases List.any_eq_true.mp ha with ⟨kv, hmem, hkv⟩
      exact absurd hkv (hf kv hmem)
    | some kv0 =>
      have h0 := List.find?_some hf
      simp only [decide_eq_true_eq] at h0
      simp [h0]
  · rw [if_neg ha]
    unfold dictGet
    simp only [Bool.not_eq_true] at ha
    rw [List.find?_append]
    have hnone : d.find? (fun kv => decide (kv.1 = k)) = none := by
      rw [List.find?_eq_none]
      intro kv hmem hkv
      rw [List.any_eq_false] at ha
      exact absurd hkv (ha kv hmem)
    simp [hnone]

theorem dictGet_dictSet_ne (d : List (String × JVal)) (k k' : String)
    (v : JVal) (h : k ≠ k') : dictGet (dictSet d k' v) k = dictGet d k := by
  unfold dictSet
  by_cases ha : d.any (fun kv => decide (kv.1 = k')) = true
  · rw [if_pos ha]
    unfold dictGet
    rw [List.find?_map]
    simp only [Function.comp_def, dict_pred_comp]
    cases hf : d.find? (fun kv => decide (kv.1 = k)) with
    | none => simp
    | some kv0 =>
      have h0 := List.find?_some hf
      simp only [decide_eq_true_eq] at h0
      have hne : ¬ kv0.1 = k' := fun hc => h (h0 ▸ hc ▸ rfl)
      simp [hne]
  · rw [if_neg ha]
    unfold dictGet
    rw [List.find?_append]
    have htail : List.find? (fun kv => decide (kv.1 = k)) [(k', v)] = none := by
      simp [List.find?, Ne.symm h]
    cases hf : d.find? (fun kv => decide (kv.1 = k)) <;> simp [hf, htail]

theorem dictGet_dictUpdate_not_mem (new : List (String × JVal))
    (d : List (String × JVal)) (k : String)
    (h : ∀ kv ∈ new, kv.1 ≠ k) :
    dictGet (dictUpdate d new) k = dictGet d k := by
  induction new generalizing d with
  | nil => rfl
  | cons kv rest ih =>
    show dictGet (dictUpdate (dictSet d kv.1 kv.2) rest) k = dictGet d k
    rw [ih (dictSet d kv.1 kv.2) (fun x hx => h x (List.mem_cons_of_mem kv hx))]
    exact dictGet_dictSet_ne d k kv.1 kv.2
      (fun hc => h kv (List.mem_cons_self kv rest) hc.symm)

theorem dictGet_dictUpdate_isSome (new : List (String × JVal))
    (d : List (String × JVal)) (k : String)
    (h : (dictGet d k).isSome = true) :
    (dictGet (dictUpdate d new) k).isSome = true := by
  induction new generalizing d with
  | nil => exact h
  | cons kv rest ih =>
    show (dictGet (dictUpdate (dictSet d kv.1 kv.2) rest) k).isSome = true
    apply ih
    by_cases hk : k = kv.1
    · rw [hk, dictGet_dictSet_same]; rfl
    · rw [dictGet_dictSet_ne d k kv.1 kv.2 hk]; exact h

/-! ## Claim theorems -/

/-- C6: for every raw body, the verifier accepts exactly the hex HMAC
digest of that body under the server secret (any digest function whose
outputs have the 128-character length of SHA-512 hex); `"invalid"` and the
empty string are rejected, and a missing signature header is rejected
immediately. -/
theorem verify_signature_correct (hm : List Nat → String)
    (hlen : ∀ x, (hm x).length = 128) (b : List Nat) :
    (∀ s : String, verify_signature hm b (some s) = true ↔ s = hm b) ∧
    verify_signature hm b none = false ∧
    verify_signature hm b (some "invalid") = false ∧
    verify_signature hm b (some "") = false := by
  have hne : ∀ s : String, s.length ≠ 128 → hm b ≠ s := by
    intro s hs hc
    exact hs (hc ▸ hlen b)
  refine ⟨?_, rfl, ?_, ?_⟩
  · intro s
    show (if s = "" then false else compare_digest (hm b) s) = true ↔ s = hm b
    by_cases hs : s = ""
    · rw [if_pos hs]
      simp only [Bool.false_eq_true, false_iff]
      intro hsb
      exact hne s (by rw [hs]; decide) hsb.symm
    · rw [if_neg hs]
      unfold compare_digest
      rw [beq_iff_eq]
      exact eq_comm
  · show (if ("invalid" : String) = "" then false
          else compare_digest (hm b) "invalid") = false
    rw [if_neg (by decide)]
    unfold compare_digest
    rw [beq_eq_false_iff_ne]
    exact hne "invalid" (by decide)
  · show (if ("" : String) = "" then false else compare_digest (hm b) "") = false
    rw [if_pos rfl]

/-- C6 witness: the correctness statement evaluated at a concrete
128-character digest function and a concrete body. -/
theorem verify_signature_correct_witness :
    (∀ s : String, verify_signature hm128 bodyC (some s) = true ↔
       s = hm128 bodyC) ∧
    verify_signature hm128 bodyC none = false ∧
    verify_signature hm128 bodyC (some "invalid") = false ∧
    verify_signature hm128 bodyC (some "") = false :=
  verify_signature_correct hm128 (fun _ => rfl) bodyC

/-- C7: `can_retry` denies once `retry_count ≥ 3` regardless of the clock;
below the cap it denies while fewer than 300 seconds have elapsed since
`last_retry_at` and allows once at least 300 seconds have elapsed; the same
cooldown governs the state immediately after `increment_retry`. -/
theorem retry_policy_correct (p : Payment) (t now : Nat) :
    (p.retry_count ≥ 3 → can_retry p t = false) ∧
    (p.retry_count < 3 →
      ∀ lt, p.last_retry_at = some lt →
        (t - lt < 300 → can_retry p t = false) ∧
        (300 ≤ t - lt → can_retry p t = true)) ∧
    ((increment_retry p now).retry_count < 3 →
      (t - now < 300 → can_retry (increment_retry p now) t = false) ∧
      (300 ≤ t - now → can_retry (increment_retry p now) t = true)) := by
  refine ⟨?_, ?_, ?_⟩
  · intro h3
    unfold can_retry
    rw [if_pos h3]
  · intro h3 lt hlt
    unfold can_retry
    rw [if_neg (Nat.not_le.mpr h3), hlt]
    constructor
    · intro hc
      simp only [if_pos hc]
    · intro hc
      simp only [if_neg (Nat.not_lt.mpr hc)]
  · intro h3
    have h3' : p.retry_count + 1 < 3 := h3
    constructor
    · intro hc
      show (if p.retry_count + 1 ≥ 3 then false
            else if t - now < 300 then false else true) = false
      rw [if_neg (Nat.not_le.mpr h3'), if_pos hc]
    · intro hc
      show (if p.retry_count + 1 ≥ 3 then false
            else if t - now < 300 then false else true) = true
      rw [if_neg (Nat.not_le.mpr h3'), if_neg (Nat.not_lt.mpr hc)]

/-- C7 witness: at the cap the clock is irrelevant; one increment at time
100 denies at time 200 and allows at time 400. -/
theorem retry_policy_correct_witness :
    can_retry pRetry3 1000000 = false ∧
    can_retry (increment_retry pPending 100) 200 = false ∧
    can_retry (increment_retry pPending 100) 400 = true :=
  ⟨(retry_policy_correct pRetry3 1000000 0).1 (by decide),
   ((retry_policy_correct pPending 200 100).2.2 (by decide)).1 (by decide),
   ((retry_policy_correct pPending 400 100).2.2 (by decide)).2 (by decide)⟩

/-- C2 amended: the webhook failure path carries no terminal-state guard —
for a payment in ANY current status (in particular `Completed`), a
`charge.failed` delivery returns 200 and overwrites the status to
`Failed`; no Conflict is surfaced and the existing state does not win. -/
theorem webhook_failed_overwrites_any_status (hm : List Nat → String)
    (body : List Nat) (sig : Option String) (now : String)
    (p : Payment) (o : Order) (d : WData)
    (hs : verify_signature hm body sig = true)
    (href : p.reference = d.reference) :
    (let r := webhookPost hm { payments := [p], orders := [o] } now body
       (some { event := some "charge.failed", data := some d }) sig
     r.1 = 200 ∧ paymentStatus r.2 d.reference = some "Failed") := by
  simp [webhookPost, hs, findPayment, savePayment, paymentStatus, href]

/-- C2 witness: the amended statement at the concrete completed fixture. -/
theorem webhook_failed_overwrites_any_status_witness :
    (let r := webhookPost hmC { payments := [pCompleted], orders := [oPaid] }
       "t2" bodyC (some { event := some "charge.failed",
                          data := some { reference := refC,
                                         wid := some "txn_1",
                                         message := some "declined" } }) sigC
     r.1 = 200 ∧ paymentStatus r.2 refC = some "Failed") :=
  webhook_failed_overwrites_any_status hmC bodyC sigC "t2" pCompleted oPaid
    { reference := refC, wid := some "txn_1", message := some "declined" }
    (by decide) (by decide)

/-- C4 amended: the refund path checks no precondition — for a payment in
ANY current status (not only `Completed`), a `refund.processed` delivery
returns 200 and overwrites the status to `Refunded`; there is no
InvalidTransition rejection. -/
theorem webhook_refund_unconditional (hm : List Nat → String)
    (body : List Nat) (sig : Option String) (now : String)
    (p : Payment) (o : Order) (d : WData)
    (hs : verify_signature hm body sig = true)
    (href : p.reference = d.reference) :
    (let r := webhookPost hm { payments := [p], orders := [o] } now body
       (some { event := some "refund.processed", data := some d }) sig
     r.1 = 200 ∧ paymentStatus r.2 d.reference = some "Refunded") := by
  simp [webhookPost, hs, findPayment, savePayment, paymentStatus, href]

/-- C4 witness: the amended statement at the concrete pending fixture. -/
theorem webhook_refund_unconditional_witness :
    (let r := webhookPost hmC dbPending "t2" bodyC
       (some { event := some "refund.processed",
               data := some { reference := refC, wid := some "rf_1",
                              message := none } }) sigC
     r.1 = 200 ∧ paymentStatus r.2 refC = some "Refunded") :=
  webhook_refund_unconditional hmC bodyC sigC "t2" pPending oPending
    { reference := refC, wid := some "rf_1", message := none }
    (by decide) (by decide)

/-- C1 amended: redelivering the same `Success` outcome to an
already-completed payment returns 200 and leaves the status `Completed`
both times, but it is NOT a no-op: the handler unconditionally reruns the
full mutation, overwriting `webhook_received_at` (and `webhook_data`) with
the fresh event and re-saving the Payment and Order rows. -/
theorem webhook_success_redelivery_repeats_mutation
    (hm : List Nat → String) (body : List Nat) (sig : Option String)
    (now1 now2 : String) (p : Payment) (o : Order) (d : WData)
    (hs : verify_signature hm body sig = true)
    (href : p.reference = d.reference)
    (hoid : o.id = p.orderId) :
    (let pl : WebhookPayload := { event := some "charge.success",
                                  data := some d }
     let r1 := webhookPost hm { payments := [p], orders := [o] } now1 body
       (some pl) sig
     let r2 := webhookPost hm r1.2 now2 body (some pl) sig
     r1.1 = 200 ∧ r2.1 = 200 ∧
     paymentStatus r1.2 d.reference = some "Completed" ∧
     paymentStatus r2.2 d.reference = some "Completed" ∧
     metaAt r1.2 d.reference "webhook_received_at" =
       some (JVal.jstr now1) ∧
     metaAt r2.2 d.reference "webhook_received_at" =
       some (JVal.jstr now2)) := by
  simp only [webhookPost, hs, findPayment, lookupOrder, savePayment,
    saveOrder, paymentStatus, metaAt, href, hoid, dictUpdate]
  simp [href, hoid, dictGet_dictSet_same, dictGet_dictSet_ne]

/-- C1 witness: the amended statement at the concrete pending fixture with
two distinct receipt times. -/
theorem webhook_success_redelivery_repeats_mutation_witness :
    (let pl : WebhookPayload := { event := some "charge.success",
                                  data := some { reference := refC,
                                                 wid := some "txn_1",
                                                 message := none } }
     let r1 := webhookPost hmC dbPending "t1" bodyC (some pl) sigC
     let r2 := webhookPost hmC r1.2 "t2" bodyC (some pl) sigC
     r1.1 = 200 ∧ r2.1 = 200 ∧
     paymentStatus r1.2 refC = some "Completed" ∧
     paymentStatus r2.2 refC = some "Completed" ∧
     metaAt r1.2 refC "webhook_received_at" = some (JVal.jstr "t1") ∧
     metaAt r2.2 refC "webhook_received_at" = some (JVal.jstr "t2")) :=
  webhook_success_redelivery_repeats_mutation hmC bodyC sigC "t1" "t2"
    pPending oPending
    { reference := refC, wid := some "txn_1", message := none }
    (by decide) (by decide) (by decide)

/-- C3 amended: on the success reconciles (webhook `charge.success` and the
verify path) the Payment-status and Order-status mutations land in the same
call — afterwards the payment is `Completed` and its order `Paid` together.
The failure and refund reconciles, however, mutate only the Payment and
never touch any order row, so the equivalence Payment=Completed ⟺
Order=Paid can fail after them. -/
theorem success_sets_both_failure_refund_touch_only_payment
    (hm : List Nat → String) (body : List Nat) (sig : Option String)
    (now : String) (p : Payment) (o : Order) (d : WData)
    (refStr vid : String)
    (hs : verify_signature hm body sig = true)
    (href : p.reference = d.reference)
    (hoid : o.id = p.orderId)
    (href2 : p.reference = some refStr) :
    (let r := webhookPost hm { payments := [p], orders := [o] } now body
       (some { event := some "charge.success", data := some d }) sig
     r.1 = 200 ∧ paymentStatus r.2 d.reference = some "Completed" ∧
     orderStatus r.2 p.orderId = some "Paid") ∧
    (let rv := verifyGet { payments := [p], orders := [o] } refStr
       (VerifyGateway.ok "success" vid)
     rv.1 = 200 ∧ paymentStatus rv.2 (some refStr) = some "Completed" ∧
     orderStatus rv.2 p.orderId = some "Paid") ∧
    (∀ db' : DB, (webhookPost hm db' now body
       (some { event := some "charge.failed", data := some d }) sig).2.orders
        = db'.orders) ∧
    (∀ db' : DB, (webhookPost hm db' now body
       (some { event := some "refund.processed", data := some d }) sig).2.orders
        = db'.orders) := by
  refine ⟨?_, ?_, ?_, ?_⟩
  · simp [webhookPost, hs, findPayment, lookupOrder, savePayment, saveOrder,
      paymentStatus, orderStatus, href, hoid]
  · simp [verifyGet, findPayment, lookupOrder, savePayment, saveOrder,
      paymentStatus, orderStatus, href2, hoid]
  · intro db'
    by_cases hv : verify_signature hm body sig = false
    · simp [webhookPost, hv]
    · cases hf : findPayment db' d.reference <;>
        simp [webhookPost, hv, hf, savePayment]
  · intro db'
    by_cases hv : verify_signature hm body sig = false
    · simp [webhookPost, hv]
    · cases hf : findPayment db' d.reference <;>
        simp [webhookPost, hv, hf, savePayment]

/-- C3 witness: the amended statement at the concrete pending fixture. -/
theorem success_sets_both_witness :
    (let r := webhookPost hmC dbPending "t1" bodyC
       (some { event := some "charge.success",
               data := some { reference := refC, wid := some "txn_1",
                              message := none } }) sigC
     r.1 = 200 ∧ paymentStatus r.2 refC = some "Completed" ∧
     orderStatus r.2 42 = some "Paid") ∧
    (let rv := verifyGet dbPending "42-7" (VerifyGateway.ok "success" "txn_1")
     rv.1 = 200 ∧ paymentStatus rv.2 (some "42-7") = some "Completed" ∧
     orderStatus rv.2 42 = some "Paid") ∧
    (∀ db' : DB, (webhookPost hmC db' "t1" bodyC
       (some { event := some "charge.failed",
               data := some { reference := refC, wid := some "txn_1",
                              message := none } }) sigC).2.orders
        = db'.orders) ∧
    (∀ db' : DB, (webhookPost hmC db' "t1" bodyC
       (some { event := some "refund.processed",
               data := some { reference := refC, wid := some "txn_1",
                              message := none } }) sigC).2.orders
        = db'.orders) :=
  success_sets_both_failure_refund_touch_only_payment hmC bodyC sigC "t1"
    pPending oPending
    { reference := refC, wid := some "txn_1", message := none }
    "42-7" "txn_1" (by decide) (by decide) (by decide) (by decide)

/-- C5 amended: for a store in which every payment's order exists, the
webhook handler's status code is exactly the amended policy: 401 on a
failed signature check, 400 on malformed JSON, 404 for a `charge.success`
whose reference matches no payment, 500 for a handled event without a
`data` object, and 200 for everything else — in particular a
`charge.failed` or `refund.processed` for an unknown reference is logged
and still answered with 200. -/
theorem webhook_response_codes (hm : List Nat → String) (db : DB)
    (now : String) (body : List Nat) (parsed : Option WebhookPayload)
    (sig : Option String)
    (hwf : ∀ p ∈ db.payments, (lookupOrder db p.orderId).isSome = true) :
    (webhookPost hm db now body parsed sig).1 =
      webhookCodeSpec hm db body parsed sig := by
  by_cases hv : verify_signature hm body sig = false
  · simp [webhookPost, webhookCodeSpec, hv]
  · cases parsed with
    | none => simp [webhookPost, webhookCodeSpec, hv]
    | some pl =>
      obtain ⟨ev, dt⟩ := pl
      by_cases he1 : ev = some "charge.success"
      · cases dt with
        | none => simp [webhookPost, webhookCodeSpec, hv, he1]
        | some d =>
          cases hf : findPayment db d.reference with
          | none => simp [webhookPost, webhookCodeSpec, hv, he1, hf]
          | some p =>
            have hmem : p ∈ db.payments := by
              have hf' := hf
              unfold findPayment at hf'
              exact List.mem_of_find?_eq_some hf'
            obtain ⟨o, ho⟩ := Option.isSome_iff_exists.mp (hwf p hmem)
            simp [webhookPost, webhookCodeSpec, hv, he1, hf, ho]
      · by_cases he2 : ev = some "charge.failed"
        · cases dt with
          | none => simp [webhookPost, webhookCodeSpec, hv, he1, he2]
          | some d =>
            cases hf : findPayment db d.reference <;>
              simp [webhookPost, webhookCodeSpec, hv, he1, he2, hf]
        · by_cases he3 : ev = some "refund.processed"
          · cases dt with
            | none => simp [webhookPost, webhookCodeSpec, hv, he1, he2, he3]
            | some d =>
              cases hf : findPayment db d.reference <;>
                simp [webhookPost, webhookCodeSpec, hv, he1, he2, he3, hf]
          · simp [webhookPost, webhookCodeSpec, hv, he1, he2, he3]

/-- C5 witness: the code equality evaluated at the concrete fixture store
for a signature-valid `charge.success` with an unknown reference (the 404
case of the amended policy). -/
theorem webhook_response_codes_witness :
    (webhookPost hmC dbPending "t1" bodyC (some plUnknown) sigC).1 =
      webhookCodeSpec hmC dbPending bodyC (some plUnknown) sigC :=
  webhook_response_codes hmC dbPending "t1" bodyC (some plUnknown) sigC
    (by decide)

/-- C8: payment initiation never creates an orphan row — the store changes
only when the gateway call returns 200; an invalid body or a pre-existing
payment for the order is 400 with no row; a gateway error or a `requests`
exception (which includes timeouts) is 503 with no row; a 200 gateway
response creates exactly one new row with status `Pending` and returns
201. -/
theorem payment_initiation_no_orphans (db : DB) (valid : Bool)
    (orderId amount : Nat) (currency pm : String) (g : InitGateway) :
    ((paymentPost db valid orderId amount currency pm g).2 ≠ db →
       ∃ ref url, g = InitGateway.httpOk ref url) ∧
    (valid = false →
       paymentPost db valid orderId amount currency pm g = (400, db)) ∧
    (valid = true →
       db.payments.any (fun p => decide (p.orderId = orderId)) = true →
       paymentPost db valid orderId amount currency pm g = (400, db)) ∧
    (valid = true →
       db.payments.any (fun p => decide (p.orderId = orderId)) = false →
       g = InitGateway.httpErr ∨ g = InitGateway.reqException →
       paymentPost db valid orderId amount currency pm g = (503, db)) ∧
    (∀ ref url, valid = true →
       db.payments.any (fun p => decide (p.orderId = orderId)) = false →
       g = InitGateway.httpOk ref url →
       paymentPost db valid orderId amount currency pm g =
         (201, { db with payments := db.payments ++
            [mkPayment db orderId amount currency pm ref url] }) ∧
       (mkPayment db orderId amount currency pm ref url).status =
         "Pending") := by
  refine ⟨?_, ?_, ?_, ?_, ?_⟩
  · intro hne
    by_cases hvv : valid = false
    · exact absurd (by simp [paymentPost, hvv]) hne
    · have hvt : valid = true := by revert hvv; cases valid <;> simp
      by_cases hany :
          db.payments.any (fun p => decide (p.orderId = orderId)) = true
      · exact absurd (by simp [paymentPost, hvt, hany]) hne
      · cases g with
        | httpErr => exact absurd (by simp [paymentPost, hvt, hany]) hne
        | reqException => exact absurd (by simp [paymentPost, hvt, hany]) hne
        | httpOk ref url => exact ⟨ref, url, rfl⟩
  · intro hvv
    simp [paymentPost, hvv]
  · intro hvt hany
    simp [paymentPost, hvt, hany]
  · intro hvt hany hg
    cases hg with
    | inl h => simp [paymentPost, hvt, hany, h]
    | inr h => simp [paymentPost, hvt, hany, h]
  · intro ref url hvt hany hg
    subst hg
    exact ⟨by simp [paymentPost, hvt, hany], rfl⟩

/-- C8 witness: the statement evaluated on an empty store with a valid
body; the 201/400/503 branches are all discharged at concrete inputs. -/
theorem payment_initiation_no_orphans_witness :
    paymentPost { payments := [], orders := [oPending] } true 42 100 "GHS"
        "card" InitGateway.reqException =
      (503, { payments := [], orders := [oPending] }) ∧
    (paymentPost { payments := [], orders := [oPending] } true 42 100 "GHS"
        "card" (InitGateway.httpOk "42-7" "u")).1 = 201 ∧
    paymentPost dbPending true 42 100 "GHS" "card"
        (InitGateway.httpOk "42-7" "u") = (400, dbPending) :=
  ⟨((payment_initiation_no_orphans { payments := [], orders := [oPending] }
      true 42 100 "GHS" "card" InitGateway.reqException).2.2.2.1 rfl
      (by decide) (Or.inr rfl)),
   by
    rw [((payment_initiation_no_orphans { payments := [], orders := [oPending] }
      true 42 100 "GHS" "card" (InitGateway.httpOk "42-7" "u")).2.2.2.2
      "42-7" "u" rfl (by decide) rfl).1],
   ((payment_initiation_no_orphans dbPending
      true 42 100 "GHS" "card" (InitGateway.httpOk "42-7" "u")).2.2.1 rfl
      (by decide))⟩

/-- C9 amended: the three WEBHOOK mutation paths produce exactly the
`dict.update` merge of the prior metadata with the event's namespaced keys
(`webhook_data`, `webhook_received_at`, plus `failure_reason` or
`refund_id`), and that merge is non-destructive — every key present before
stays present, and keys outside the event's own set keep their values.
The VERIFY-path success mutation, however, performs no merge at all: the
payment's metadata is left exactly as it was. -/
theorem metadata_merge_webhook_paths_only
    (hm : List Nat → String) (body : List Nat) (sig : Option String)
    (now : String) (p : Payment) (o : Order) (d : WData)
    (refStr vid : String)
    (hs : verify_signature hm body sig = true)
    (href : p.reference = d.reference)
    (hoid : o.id = p.orderId)
    (href2 : p.reference = some refStr) :
    paymentMeta (webhookPost hm { payments := [p], orders := [o] } now body
        (some { event := some "charge.success", data := some d }) sig).2
        d.reference =
      some (dictUpdate p.metadata
        [("webhook_data", JVal.jdata d.reference d.wid d.message),
         ("webhook_received_at", JVal.jstr now)]) ∧
    paymentMeta (webhookPost hm { payments := [p], orders := [o] } now body
        (some { event := some "charge.failed", data := some d }) sig).2
        d.reference =
      some (dictUpdate p.metadata
        [("webhook_data", JVal.jdata d.reference d.wid d.message),
         ("webhook_received_at", JVal.jstr now),
         ("failure_reason",
           match d.message with
           | none => JVal.jnull
           | some m => JVal.jstr m)]) ∧
    paymentMeta (webhookPost hm { payments := [p], orders := [o] } now body
        (some { event := some "refund.processed", data := some d }) sig).2
        d.reference =
      some (dictUpdate p.metadata
        [("webhook_data", JVal.jdata d.reference d.wid d.message),
         ("webhook_received_at", JVal.jstr now),
         ("refund_id",
           match d.wid with
           | none => JVal.jnull
           | some i => JVal.jstr i)]) ∧
    (∀ (m new : List (String × JVal)) (k : String),
       (dictGet m k).isSome = true →
       (dictGet (dictUpdate m new) k).isSome = true) ∧
    (∀ (m new : List (String × JVal)) (k : String),
       (∀ kv ∈ new, kv.1 ≠ k) →
       dictGet (dictUpdate m new) k = dictGet m k) ∧
    paymentMeta (verifyGet { payments := [p], orders := [o] } refStr
        (VerifyGateway.ok "success" vid)).2 (some refStr) =
      some p.metadata := by
  refine ⟨?_, ?_, ?_, ?_, ?_, ?_⟩
  · simp [webhookPost, hs, findPayment, lookupOrder, savePayment, saveOrder,
      paymentMeta, href, hoid]
  · simp [webhookPost, hs, findPayment, savePayment, paymentMeta, href]
  · simp [webhookPost, hs, findPayment, savePayment, paymentMeta, href]
  · exact fun m new k h => dictGet_dictUpdate_isSome new m k h
  · exact fun m new k h => dictGet_dictUpdate_not_mem new m k h
  · simp [verifyGet, findPayment, lookupOrder, savePayment, saveOrder,
      paymentMeta, href2, hoid]

/-- C9 witness: the merge shapes evaluated at the concrete pending
fixture. -/
theorem metadata_merge_webhook_paths_only_witness :
    paymentMeta (webhookPost hmC dbPending "t1" bodyC
        (some { event := some "charge.success",
                data := some { reference := refC, wid := some "txn_1",
                               message := none } }) sigC).2 refC =
      some (dictUpdate pPending.metadata
        [("webhook_data", JVal.jdata refC (some "txn_1") none),
         ("webhook_received_at", JVal.jstr "t1")]) ∧
    paymentMeta (verifyGet dbPending "42-7"
        (VerifyGateway.ok "success" "txn_1")).2 (some "42-7") =
      some pPending.metadata :=
  (fun h => ⟨h.1, h.2.2.2.2.2⟩)
    (metadata_merge_webhook_paths_only hmC bodyC sigC "t1" pPending oPending
      { reference := refC, wid := some "txn_1", message := none }
      "42-7" "txn_1" (by decide) (by decide) (by decide) (by decide))
